import Mathlib

/-
Verification of the machine-learning-mode game driver
(`pingpong/game/pingpong_ml.py`, class `PingPong`).

The driver's methods are embedded as pure functions with explicit state
passing: each multiprocessing pipe end becomes a list of queued messages
(head = oldest message, the next one `recv` would return), and sends append
to the destination list.  Blocking reads that would wait forever (an
exhausted inbound queue inside the ready barrier) are modelled as `none`.
-/

namespace PingPongML

/-- Modelled from the spec: the command enumeration of `communication.PlatformAction`
(the module is not part of the sources); the spec lists the four values
NONE, MOVE_LEFT, MOVE_RIGHT, READY. -/
inductive PlatformAction where
  | NONE
  | MOVE_LEFT
  | MOVE_RIGHT
  | READY
deriving DecidableEq, Repr

/-- Modelled from the spec: `communication.GameInstruction`, a sequence
identifier and a command; the default/fallback instance is
(sequence -1, command NONE). -/
structure GameInstruction where
  sequence : Int
  command : PlatformAction
deriving DecidableEq, Repr

/-- The default Instruction the driver fabricates when nothing usable is
available: `GameInstruction(-1, PlatformAction.NONE)` in the source. -/
def dummyInstruction : GameInstruction :=
  ⟨-1, PlatformAction.NONE⟩

/-- Modelled from the spec: `essential.exception.ExceptionMessage` (the
ErrorSignal), a tagged message carrying a description of a fatal condition
raised inside a controller process. -/
structure ExceptionMessage where
  message : String
deriving DecidableEq, Repr

/-- A message found on a controller's inbound (instruction) pipe.  The source
discriminates with `isinstance`: an `ExceptionMessage`, a `GameInstruction`,
or any other object (`other`, carrying an abstract tag). -/
inductive Msg where
  | instr (i : GameInstruction)
  | exc (e : ExceptionMessage)
  | other (tag : Nat)
deriving DecidableEq, Repr

/-- A message sent on `self._main_pipe` (the observer sink): either the
per-tick `(scene_info, (instruction_1P, instruction_2P))` pair, the
round-end `(scene_info, None)` pair, or a relayed `(ExceptionMessage, None)`. -/
inductive MainMsg (ι : Type) where
  | pair (si : ι) (i1 i2 : GameInstruction)
  | roundEnd (si : ι)
  | error (e : ExceptionMessage)
deriving DecidableEq, Repr

/-- Modelled from the spec: `gamecore.GameStatus`; the source only tests the
two win values (`GAME_1P_WIN`, `GAME_2P_WIN`); the spec's round-status
enumeration is IN_PROGRESS / SIDE_A_WINS / SIDE_B_WINS. -/
inductive GameStatus where
  | GAME_ALIVE
  | GAME_1P_WIN
  | GAME_2P_WIN
deriving DecidableEq, Repr

/-- Modelled from the spec: `communication.SceneInfo` — the snapshot broadcast
each tick: frame counter, ball position, two platform positions, ball speed
and the round status. -/
structure SceneInfo where
  frame : Nat
  ball : Int × Int
  platform_1P : Int × Int
  platform_2P : Int × Int
  ball_speed : Int
  status : GameStatus
deriving DecidableEq, Repr

/-- Modelled from the spec: the opaque simulation collaborator
(`gamecore.Scene`).  `update` is the state-transition function taking the two
validated commands and yielding the new scene state and the round status;
`reset` restores a fresh round; `fill_scene_info` produces the snapshot
(`scene.fill_scene_info_obj(SceneInfo())` in the source). -/
structure SceneOps (σ : Type) where
  update : σ → PlatformAction → PlatformAction → σ × GameStatus
  reset : σ → σ
  fill_scene_info : σ → SceneInfo

/-- The driver's state: the two inbound instruction pipes (`recv_end`s of
`self._ml_pipes`), the two outbound scene-info pipes (`send_end`s, recorded
as the list of snapshots sent so far, oldest first), the observer pipe
(`self._main_pipe`, messages sent so far), the scene state and the current
`scene_info` variable of `game_loop`. -/
structure DriverState (σ : Type) where
  chan1P : List Msg
  chan2P : List Msg
  out1P : List SceneInfo
  out2P : List SceneInfo
  mainPipe : List (MainMsg SceneInfo)
  scene : σ
  scene_info : SceneInfo
deriving DecidableEq, Repr

/-- The result of one non-blocking intake (`_recv_instruction`) on one pipe:
the returned instruction, the remaining queue, and the messages sent to the
observer pipe while handling it. -/
structure RecvResult where
  instr : GameInstruction
  rest : List Msg
  toMain : List (MainMsg SceneInfo)
deriving DecidableEq, Repr

/-- `PingPong._recv_instruction`, the part after the side check, acting on one
inbound queue.  `target_pipe.poll()` is false exactly when the queue is empty:
return the default instruction without consuming anything.  Otherwise pop one
message: an `ExceptionMessage` is relayed to the main pipe as
`(instruction, None)` and (not being a `GameInstruction`) the default is
returned; a non-instruction object yields the default; an instruction whose
command is neither MOVE_LEFT nor MOVE_RIGHT has its command overwritten with
NONE; otherwise it is returned unchanged. -/
def recv_instruction : List Msg → RecvResult
  | [] => ⟨dummyInstruction, [], []⟩
  | Msg.exc e :: rest => ⟨dummyInstruction, rest, [MainMsg.error e]⟩
  | Msg.other _ :: rest => ⟨dummyInstruction, rest, []⟩
  | Msg.instr i :: rest =>
    if i.command = PlatformAction.MOVE_LEFT ∨ i.command = PlatformAction.MOVE_RIGHT then
      ⟨i, rest, []⟩
    else
      ⟨⟨i.sequence, PlatformAction.NONE⟩, rest, []⟩

/-- `PingPong._recv_instruction` with its side validation: a `from_side`
other than "1P" or "2P" raises `ValueError` before touching any pipe
(modelled as `Except.error` with the message text); a valid side runs
`recv_instruction` on that side's queue and threads the state. -/
def recv_instruction_side {σ : Type} (s : DriverState σ) (from_side : String) :
    Except String (GameInstruction × DriverState σ) :=
  if from_side = "1P" then
    let r := recv_instruction s.chan1P
    Except.ok (r.instr, { s with chan1P := r.rest, mainPipe := s.mainPipe ++ r.toMain })
  else if from_side = "2P" then
    let r := recv_instruction s.chan2P
    Except.ok (r.instr, { s with chan2P := r.rest, mainPipe := s.mainPipe ++ r.toMain })
  else
    Except.error ("Invalid from_side: " ++ from_side ++ ". Should be either 1P or 2P.")

/-- Whether a queued message resolves the ready wait of
`_wait_ml_process_ready.wait_ready_command`: an `ExceptionMessage`, or a
`GameInstruction` whose command is READY. -/
def resolvesReady : Msg → Bool
  | Msg.exc _ => true
  | Msg.instr i => i.command = PlatformAction.READY
  | Msg.other _ => false

/-- The inner loop `wait_ready_command` of `PingPong._wait_ml_process_ready`,
acting on one inbound queue: blocking-`recv` messages one by one; an
`ExceptionMessage` is relayed to the main pipe and the wait returns; an
instruction with command READY returns; anything else is discarded and the
loop continues.  An exhausted queue means the real code blocks forever:
modelled as `none`.  On success the relayed main-pipe messages and the
remaining queue are returned. -/
def wait_ready_command : List Msg → Option (List (MainMsg SceneInfo) × List Msg)
  | [] => none
  | Msg.exc e :: rest => some ([MainMsg.error e], rest)
  | Msg.instr i :: rest =>
    if i.command = PlatformAction.READY then some ([], rest)
    else wait_ready_command rest
  | Msg.other _ :: rest => wait_ready_command rest

/-- `PingPong._wait_ml_process_ready`: wait on the 1P pipe, then on the 2P
pipe; the barrier releases only when both waits resolved.  Returns the
main-pipe relays (1P's first) and the two remaining queues. -/
def wait_ml_process_ready (chan1P chan2P : List Msg) :
    Option (List (MainMsg SceneInfo) × List Msg × List Msg) :=
  match wait_ready_command chan1P with
  | none => none
  | some (m1, r1) =>
    match wait_ready_command chan2P with
    | none => none
    | some (m2, r2) => some (m1 ++ m2, r1, r2)

/-- `PingPong._send_scene_info`: send the snapshot on the 1P scene-info pipe,
then on the 2P scene-info pipe. -/
def send_scene_info {σ : Type} (s : DriverState σ) (si : SceneInfo) : DriverState σ :=
  { s with out1P := s.out1P ++ [si], out2P := s.out2P ++ [si] }

/-- An observable action of the driver, in the order the source performs
them, used to state ordering properties of one `game_loop` iteration. -/
inductive Event where
  | sendScene (side : String) (si : SceneInfo)
  | clockTick
  | pollRecv (side : String)
  | mainSend (m : MainMsg SceneInfo)
  | sceneUpdate (a1 a2 : PlatformAction)
  | barrierWait
deriving DecidableEq, Repr

/-- One iteration of the `while True` body of `PingPong.game_loop`:
send the current scene info to both ml processes; tick the clock; receive the
1P then the 2P instruction (non-blocking); send the
`(scene_info, (instruction_1P, instruction_2P))` pair on the main pipe;
update the scene with the two commands and refill the scene info; if either
side won, send the final scene info to both, send `(scene_info, None)` on the
main pipe, reset the scene, refill the scene info and block on the ready
barrier.  Returns the ordered event trace and the next state (`none` when
the barrier blocks forever). -/
def game_tick {σ : Type} (ops : SceneOps σ) (s : DriverState σ) :
    List Event × Option (DriverState σ) :=
  let si := s.scene_info
  let r1 := recv_instruction s.chan1P
  let r2 := recv_instruction s.chan2P
  let i1 := r1.instr
  let i2 := r2.instr
  let us := ops.update s.scene i1.command i2.command
  let scene2 := us.1
  let status := us.2
  let si2 := ops.fill_scene_info scene2
  let preEvents : List Event :=
    [Event.sendScene "1P" si, Event.sendScene "2P" si, Event.clockTick,
     Event.pollRecv "1P"] ++ r1.toMain.map Event.mainSend ++
    [Event.pollRecv "2P"] ++ r2.toMain.map Event.mainSend ++
    [Event.mainSend (MainMsg.pair si i1 i2), Event.sceneUpdate i1.command i2.command]
  let s1 : DriverState σ :=
    { chan1P := r1.rest, chan2P := r2.rest
      out1P := s.out1P ++ [si], out2P := s.out2P ++ [si]
      mainPipe := s.mainPipe ++ r1.toMain ++ r2.toMain ++ [MainMsg.pair si i1 i2]
      scene := scene2, scene_info := si2 }
  if status = GameStatus.GAME_1P_WIN ∨ status = GameStatus.GAME_2P_WIN then
    let endEvents : List Event :=
      [Event.sendScene "1P" si2, Event.sendScene "2P" si2,
       Event.mainSend (MainMsg.roundEnd si2), Event.barrierWait]
    let sceneR := ops.reset scene2
    let siR := ops.fill_scene_info sceneR
    match wait_ml_process_ready s1.chan1P s1.chan2P with
    | none => (preEvents ++ endEvents, none)
    | some (mains, c1, c2) =>
      (preEvents ++ endEvents ++ mains.map Event.mainSend,
       some { chan1P := c1, chan2P := c2
              out1P := s1.out1P ++ [si2], out2P := s1.out2P ++ [si2]
              mainPipe := s1.mainPipe ++ [MainMsg.roundEnd si2] ++ mains
              scene := sceneR, scene_info := siR })
  else
    (preEvents, some s1)

/-! Concrete fixtures used by witness theorems. -/

/-- A concrete snapshot value. -/
def blankSceneInfo : SceneInfo :=
  ⟨0, (0, 0), (0, 0), (0, 0), 0, GameStatus.GAME_ALIVE⟩

/-- A concrete simulation collaborator over `Nat` states: `update` increments
the state and reports the given status, `fill_scene_info` exposes the state
as the frame counter. -/
def natOps (st : GameStatus) : SceneOps Nat :=
  ⟨fun n _ _ => (n + 1, st), fun _ => 0,
   fun n => ⟨n, (0, 0), (0, 0), (0, 0), 0, GameStatus.GAME_ALIVE⟩⟩

/-- A concrete driver state over `Nat` scenes with the given inbound queues. -/
def mkState (c1 c2 : List Msg) : DriverState Nat :=
  ⟨c1, c2, [], [], [], 0, blankSceneInfo⟩

/-! Helper lemmas shared by the claim theorems. -/

/-- After intake, the returned command is always one of NONE, MOVE_LEFT,
MOVE_RIGHT. -/
lemma recv_command_cases (pipe : List Msg) :
    (recv_instruction pipe).instr.command = PlatformAction.NONE ∨
    (recv_instruction pipe).instr.command = PlatformAction.MOVE_LEFT ∨
    (recv_instruction pipe).instr.command = PlatformAction.MOVE_RIGHT := by
  match pipe with
  | [] => exact Or.inl rfl
  | Msg.exc e :: rest => exact Or.inl rfl
  | Msg.other t :: rest => exact Or.inl rfl
  | Msg.instr i :: rest =>
    by_cases h : i.command = PlatformAction.MOVE_LEFT ∨ i.command = PlatformAction.MOVE_RIGHT
    · simp [recv_instruction, h]
    · simp [recv_instruction, h]

/-- Intake consumes at most the head of the queue. -/
lemma recv_rest_eq_drop (pipe : List Msg) :
    (recv_instruction pipe).rest = pipe.drop 1 := by
  match pipe with
  | [] => rfl
  | Msg.exc e :: rest => rfl
  | Msg.other t :: rest => rfl
  | Msg.instr i :: rest =>
    by_cases h : i.command = PlatformAction.MOVE_LEFT ∨ i.command = PlatformAction.MOVE_RIGHT
    · simp [recv_instruction, h]
    · simp [recv_instruction, h]

/-- The observer-pipe messages produced by the ready wait when it resolves on
a given message: an `ExceptionMessage` is relayed, a READY instruction is
not. -/
def readyRelay : Msg → List (MainMsg SceneInfo)
  | Msg.exc e => [MainMsg.error e]
  | _ => []

/-- One ready wait resolves exactly when the queue holds a resolving
message. -/
lemma wait_ready_isSome_iff (pipe : List Msg) :
    (wait_ready_command pipe).isSome ↔ ∃ m ∈ pipe, resolvesReady m = true := by
  induction pipe with
  | nil => simp [wait_ready_command]
  | cons m rest ih =>
    cases m with
    | exc e => simp [wait_ready_command, resolvesReady]
    | other t => simp [wait_ready_command, resolvesReady, ih]
    | instr i =>
      by_cases h : i.command = PlatformAction.READY
      · simp [wait_ready_command, resolvesReady, h]
      · simp [wait_ready_command, resolvesReady, h, ih]

/-- The ready wait resolves at the first resolving message, silently
discarding everything before it, and leaves the rest of the queue. -/
lemma wait_ready_first_resolving (pre : List Msg) (m : Msg) (rest : List Msg)
    (hpre : ∀ x ∈ pre, resolvesReady x = false) (hm : resolvesReady m = true) :
    wait_ready_command (pre ++ m :: rest) = some (readyRelay m, rest) := by
  induction pre with
  | nil =>
    cases m with
    | exc e => rfl
    | instr i =>
      simp only [resolvesReady, decide_eq_true_eq] at hm
      simp [wait_ready_command, readyRelay, hm]
    | other t => simp [resolvesReady] at hm
  | cons x pre ih =>
    have hx := hpre x (by simp)
    have hpre' : ∀ y ∈ pre, resolvesReady y = false := fun y hy => hpre y (by simp [hy])
    cases x with
    | exc e => simp [resolvesReady] at hx
    | other t => simpa [wait_ready_command] using ih hpre'
    | instr i =>
      have hi : ¬ i.command = PlatformAction.READY := by simpa [resolvesReady] using hx
      simpa [wait_ready_command, hi] using ih hpre'

/-- The first segment of a tick's trace: broadcast to 1P then 2P, clock tick,
poll 1P (with its relays), poll 2P (with its relays), the observer pair, the
scene update. -/
lemma game_tick_trace_pre (σ : Type) (ops : SceneOps σ) (s : DriverState σ) :
    ∃ t, (game_tick ops s).1 =
      [Event.sendScene "1P" s.scene_info, Event.sendScene "2P" s.scene_info,
       Event.clockTick, Event.pollRecv "1P"] ++
      (recv_instruction s.chan1P).toMain.map Event.mainSend ++ [Event.pollRecv "2P"] ++
      (recv_instruction s.chan2P).toMain.map Event.mainSend ++
      [Event.mainSend (MainMsg.pair s.scene_info (recv_instruction s.chan1P).instr
        (recv_instruction s.chan2P).instr),
       Event.sceneUpdate (recv_instruction s.chan1P).instr.command
        (recv_instruction s.chan2P).instr.command] ++ t := by
  simp only [game_tick]
  split
  · split
    · exact ⟨_, by simp; rfl⟩
    · exact ⟨_, by simp; rfl⟩
  · exact ⟨[], by simp⟩

/-- In a steady-state (no win) tick, the next state is fully determined:
at most the head of each inbound queue is consumed, one snapshot is appended
to each outbound pipe, the relays and the tick pair are appended to the
observer pipe, and the scene is advanced with the validated commands. -/
lemma game_tick_no_win (σ : Type) (ops : SceneOps σ) (s : DriverState σ)
    (h : ¬ ((ops.update s.scene (recv_instruction s.chan1P).instr.command
          (recv_instruction s.chan2P).instr.command).2 = GameStatus.GAME_1P_WIN ∨
        (ops.update s.scene (recv_instruction s.chan1P).instr.command
          (recv_instruction s.chan2P).instr.command).2 = GameStatus.GAME_2P_WIN)) :
    (game_tick ops s).2 = some
      { chan1P := s.chan1P.drop 1, chan2P := s.chan2P.drop 1,
        out1P := s.out1P ++ [s.scene_info], out2P := s.out2P ++ [s.scene_info],
        mainPipe := s.mainPipe ++ (recv_instruction s.chan1P).toMain ++
          (recv_instruction s.chan2P).toMain ++
          [MainMsg.pair s.scene_info (recv_instruction s.chan1P).instr
            (recv_instruction s.chan2P).instr],
        scene := (ops.update s.scene (recv_instruction s.chan1P).instr.command
          (recv_instruction s.chan2P).instr.command).1,
        scene_info := ops.fill_scene_info (ops.update s.scene
          (recv_instruction s.chan1P).instr.command
          (recv_instruction s.chan2P).instr.command).1 } := by
  simp only [game_tick]
  rw [if_neg h]
  simp [recv_rest_eq_drop]

/-! Claim theorems. -/

/-- C1: for either role, if that role's inbound channel has no message
available at poll time, `_recv_instruction` returns exactly the default
Instruction (sequence -1, command NONE) and leaves the whole driver state —
in particular the channel — unchanged.  (The embedding is a total function,
so this path is non-blocking by construction.) -/
theorem recv_empty_default (σ : Type) (s : DriverState σ) (side : String)
    (hside : side = "1P" ∨ side = "2P")
    (hempty : (if side = "1P" then s.chan1P else s.chan2P) = []) :
    recv_instruction_side s side = Except.ok (dummyInstruction, s) := by
  obtain ⟨c1, c2, o1, o2, mp, sc, si⟩ := s
  rcases hside with h | h <;> subst h <;> simp_all [recv_instruction_side, recv_instruction]

/-- C1 witness. -/
theorem recv_empty_default_witness :
    recv_instruction_side (mkState [] []) "1P" = Except.ok (dummyInstruction, mkState [] []) :=
  recv_empty_default Nat (mkState [] []) "1P" (Or.inl rfl) rfl

/-- C2: when a message is popped, an Instruction with command MOVE_LEFT or
MOVE_RIGHT is returned unchanged; an Instruction with any other command is
returned with the same sequence and command NONE; a non-Instruction object
yields the default Instruction; and for a valid role intake never raises
(always `Except.ok`), whatever the queue holds. -/
theorem recv_validation (σ : Type) (i : GameInstruction) (rest : List Msg) :
    ((i.command = PlatformAction.MOVE_LEFT ∨ i.command = PlatformAction.MOVE_RIGHT) →
      recv_instruction (Msg.instr i :: rest) = ⟨i, rest, []⟩) ∧
    ((i.command ≠ PlatformAction.MOVE_LEFT ∧ i.command ≠ PlatformAction.MOVE_RIGHT) →
      recv_instruction (Msg.instr i :: rest) =
        ⟨⟨i.sequence, PlatformAction.NONE⟩, rest, []⟩) ∧
    (∀ tag : Nat, recv_instruction (Msg.other tag :: rest) = ⟨dummyInstruction, rest, []⟩) ∧
    (∀ s : DriverState σ, (∃ v, recv_instruction_side s "1P" = Except.ok v) ∧
      (∃ v, recv_instruction_side s "2P" = Except.ok v)) := by
  refine ⟨fun h => by simp [recv_instruction, h], fun h => ?_, fun tag => rfl, fun s => ?_⟩
  · have : ¬ (i.command = PlatformAction.MOVE_LEFT ∨ i.command = PlatformAction.MOVE_RIGHT) := by
      simpa using h
    simp [recv_instruction, this]
  · exact ⟨⟨_, rfl⟩, ⟨_, rfl⟩⟩

/-- C2 witness. -/
theorem recv_validation_witness :
    recv_instruction [Msg.instr ⟨5, PlatformAction.MOVE_LEFT⟩] =
      ⟨⟨5, PlatformAction.MOVE_LEFT⟩, [], []⟩ ∧
    recv_instruction [Msg.instr ⟨7, PlatformAction.READY⟩] =
      ⟨⟨7, PlatformAction.NONE⟩, [], []⟩ :=
  ⟨(recv_validation Nat ⟨5, PlatformAction.MOVE_LEFT⟩ []).1 (Or.inl rfl),
   (recv_validation Nat ⟨7, PlatformAction.READY⟩ []).2.1 (by simp)⟩

/-- C3: when the message popped by intake for a role is an ErrorSignal
(`ExceptionMessage`), intake relays it to the observer pipe as
`(ExceptionMessage, None)` and returns the default Instruction, and the tick
continues: its trace still relays the error and still emits the regular
observer pair (with that role's instruction defaulted). -/
theorem error_signal_relay (σ : Type) (ops : SceneOps σ) :
    (∀ (s : DriverState σ) (e : ExceptionMessage) (rest : List Msg),
      s.chan1P = Msg.exc e :: rest →
      recv_instruction s.chan1P = ⟨dummyInstruction, rest, [MainMsg.error e]⟩ ∧
      Event.mainSend (MainMsg.error e) ∈ (game_tick ops s).1 ∧
      Event.mainSend (MainMsg.pair s.scene_info dummyInstruction
        (recv_instruction s.chan2P).instr) ∈ (game_tick ops s).1) ∧
    (∀ (s : DriverState σ) (e : ExceptionMessage) (rest : List Msg),
      s.chan2P = Msg.exc e :: rest →
      recv_instruction s.chan2P = ⟨dummyInstruction, rest, [MainMsg.error e]⟩ ∧
      Event.mainSend (MainMsg.error e) ∈ (game_tick ops s).1 ∧
      Event.mainSend (MainMsg.pair s.scene_info (recv_instruction s.chan1P).instr
        dummyInstruction) ∈ (game_tick ops s).1) := by
  constructor
  · intro s e rest h
    have hr : recv_instruction s.chan1P = ⟨dummyInstruction, rest, [MainMsg.error e]⟩ := by
      rw [h]; rfl
    obtain ⟨t, ht⟩ := game_tick_trace_pre σ ops s
    refine ⟨hr, ?_, ?_⟩ <;> rw [ht] <;> simp [hr]
  · intro s e rest h
    have hr : recv_instruction s.chan2P = ⟨dummyInstruction, rest, [MainMsg.error e]⟩ := by
      rw [h]; rfl
    obtain ⟨t, ht⟩ := game_tick_trace_pre σ ops s
    refine ⟨hr, ?_, ?_⟩ <;> rw [ht] <;> simp [hr]

/-- C3 witness. -/
theorem error_signal_relay_witness :
    recv_instruction (mkState [Msg.exc ⟨"boom"⟩] []).chan1P =
      ⟨dummyInstruction, [], [MainMsg.error ⟨"boom"⟩]⟩ ∧
    Event.mainSend (MainMsg.error ⟨"boom"⟩) ∈
      (game_tick (natOps GameStatus.GAME_ALIVE) (mkState [Msg.exc ⟨"boom"⟩] [])).1 ∧
    Event.mainSend (MainMsg.pair (mkState [Msg.exc ⟨"boom"⟩] []).scene_info dummyInstruction
      (recv_instruction (mkState [Msg.exc ⟨"boom"⟩] []).chan2P).instr) ∈
      (game_tick (natOps GameStatus.GAME_ALIVE) (mkState [Msg.exc ⟨"boom"⟩] [])).1 :=
  (error_signal_relay Nat (natOps GameStatus.GAME_ALIVE)).1
    (mkState [Msg.exc ⟨"boom"⟩] []) ⟨"boom"⟩ [] rfl

/-- C4: one role's ready wait resolves exactly when a READY instruction or an
ErrorSignal arrives (the latter relayed to the observer); it resolves at the
first such message, silently discarding everything before it; and the barrier
releases exactly when the 1P wait and then the 2P wait have both resolved,
never after only one. -/
theorem ready_barrier_spec :
    (∀ pipe : List Msg,
      (wait_ready_command pipe).isSome ↔ ∃ m ∈ pipe, resolvesReady m = true) ∧
    (∀ (pre : List Msg) (m : Msg) (rest : List Msg),
      (∀ x ∈ pre, resolvesReady x = false) → resolvesReady m = true →
      wait_ready_command (pre ++ m :: rest) = some (readyRelay m, rest)) ∧
    (∀ c1 c2 : List Msg, (wait_ml_process_ready c1 c2).isSome ↔
      (wait_ready_command c1).isSome ∧ (wait_ready_command c2).isSome) ∧
    (∀ (c1 c2 : List Msg) (m1 m2 : List (MainMsg SceneInfo)) (r1 r2 : List Msg),
      wait_ready_command c1 = some (m1, r1) → wait_ready_command c2 = some (m2, r2) →
      wait_ml_process_ready c1 c2 = some (m1 ++ m2, r1, r2)) := by
  refine ⟨wait_ready_isSome_iff, wait_ready_first_resolving, ?_, ?_⟩
  · intro c1 c2
    unfold wait_ml_process_ready
    rcases h1 : wait_ready_command c1 with _ | ⟨m1, r1⟩ <;>
      rcases h2 : wait_ready_command c2 with _ | ⟨m2, r2⟩ <;> simp [h1, h2]
  · intro c1 c2 m1 m2 r1 r2 h1 h2
    simp [wait_ml_process_ready, h1, h2]

/-- C4 witness. -/
theorem ready_barrier_spec_witness :
    wait_ready_command ([Msg.other 0] ++ Msg.exc ⟨"x"⟩ :: []) =
      some (readyRelay (Msg.exc ⟨"x"⟩), []) ∧
    wait_ml_process_ready [Msg.instr ⟨0, PlatformAction.READY⟩] [Msg.exc ⟨"y"⟩] =
      some ([] ++ [MainMsg.error ⟨"y"⟩], [], []) :=
  ⟨ready_barrier_spec.2.1 [Msg.other 0] (Msg.exc ⟨"x"⟩) [] (by decide) rfl,
   ready_barrier_spec.2.2.2 [Msg.instr ⟨0, PlatformAction.READY⟩] [Msg.exc ⟨"y"⟩]
     [] [MainMsg.error ⟨"y"⟩] [] [] rfl rfl⟩

/-- C5: every iteration of the tick loop performs, in order: broadcast the
current snapshot to 1P then 2P, wait for the tick boundary, poll 1P's channel
once then 2P's once, send the `(snapshot, (instruction_1P, instruction_2P))`
pair to the observer, then update the scene with the two validated commands;
and in the steady-state (no win) case the next state consumes at most one
queued message per role (the rest remaining), appends exactly one snapshot to
each outbound pipe, appends the relays and the pair to the observer pipe, and
carries the advanced scene. -/
theorem game_tick_order (σ : Type) (ops : SceneOps σ) (s : DriverState σ) :
    (∃ t, (game_tick ops s).1 =
      [Event.sendScene "1P" s.scene_info, Event.sendScene "2P" s.scene_info,
       Event.clockTick, Event.pollRecv "1P"] ++
      (recv_instruction s.chan1P).toMain.map Event.mainSend ++ [Event.pollRecv "2P"] ++
      (recv_instruction s.chan2P).toMain.map Event.mainSend ++
      [Event.mainSend (MainMsg.pair s.scene_info (recv_instruction s.chan1P).instr
        (recv_instruction s.chan2P).instr),
       Event.sceneUpdate (recv_instruction s.chan1P).instr.command
        (recv_instruction s.chan2P).instr.command] ++ t) ∧
    (¬ ((ops.update s.scene (recv_instruction s.chan1P).instr.command
          (recv_instruction s.chan2P).instr.command).2 = GameStatus.GAME_1P_WIN ∨
        (ops.update s.scene (recv_instruction s.chan1P).instr.command
          (recv_instruction s.chan2P).instr.command).2 = GameStatus.GAME_2P_WIN) →
      (game_tick ops s).2 = some
        { chan1P := s.chan1P.drop 1, chan2P := s.chan2P.drop 1,
          out1P := s.out1P ++ [s.scene_info], out2P := s.out2P ++ [s.scene_info],
          mainPipe := s.mainPipe ++ (recv_instruction s.chan1P).toMain ++
            (recv_instruction s.chan2P).toMain ++
            [MainMsg.pair s.scene_info (recv_instruction s.chan1P).instr
              (recv_instruction s.chan2P).instr],
          scene := (ops.update s.scene (recv_instruction s.chan1P).instr.command
            (recv_instruction s.chan2P).instr.command).1,
          scene_info := ops.fill_scene_info (ops.update s.scene
            (recv_instruction s.chan1P).instr.command
            (recv_instruction s.chan2P).instr.command).1 }) := by
  exact ⟨game_tick_trace_pre σ ops s, game_tick_no_win σ ops s⟩

/-- C5 witness. -/
theorem game_tick_order_witness :
    (game_tick (natOps GameStatus.GAME_ALIVE) (mkState [] [])).2 = some
      { chan1P := [], chan2P := [], out1P := [blankSceneInfo], out2P := [blankSceneInfo],
        mainPipe := [MainMsg.pair blankSceneInfo dummyInstruction dummyInstruction],
        scene := 1,
        scene_info := ⟨1, (0, 0), (0, 0), (0, 0), 0, GameStatus.GAME_ALIVE⟩ } := by
  have h := (game_tick_order Nat (natOps GameStatus.GAME_ALIVE) (mkState [] [])).2 (by decide)
  exact h.trans (by decide)

/-- Round-end fixture: both inbound queues hold a movement instruction for
this tick and then a READY instruction for the handshake. -/
def winState : DriverState Nat :=
  mkState [Msg.instr ⟨1, PlatformAction.MOVE_LEFT⟩, Msg.instr ⟨2, PlatformAction.READY⟩]
    [Msg.instr ⟨3, PlatformAction.MOVE_RIGHT⟩, Msg.instr ⟨4, PlatformAction.READY⟩]

/-- C6: when the scene update yields a WIN status, the tick performs, in
order: broadcast the final snapshot to both controllers (each outbound pipe
ends with the tick snapshot then the WIN snapshot), send the round-end
`(snapshot, None)` to the observer right after the tick pair, reset the
scene, and block on the ready barrier (the tick completes exactly when the
barrier resolves, and the barrier relays follow the round-end message); the
next tick then broadcasts the post-reset snapshot first. -/
theorem round_end_reset (σ : Type) (ops : SceneOps σ) (s : DriverState σ)
    (scene2 : σ) (status : GameStatus)
    (hu : ops.update s.scene (recv_instruction s.chan1P).instr.command
      (recv_instruction s.chan2P).instr.command = (scene2, status))
    (hwin : status = GameStatus.GAME_1P_WIN ∨ status = GameStatus.GAME_2P_WIN) :
    ((game_tick ops s).2 = none ↔
      wait_ml_process_ready (recv_instruction s.chan1P).rest
        (recv_instruction s.chan2P).rest = none) ∧
    (∀ s' : DriverState σ, (game_tick ops s).2 = some s' →
      s'.out1P = s.out1P ++ [s.scene_info, ops.fill_scene_info scene2] ∧
      s'.out2P = s.out2P ++ [s.scene_info, ops.fill_scene_info scene2] ∧
      (∃ mains, wait_ml_process_ready (recv_instruction s.chan1P).rest
          (recv_instruction s.chan2P).rest = some (mains, s'.chan1P, s'.chan2P) ∧
        s'.mainPipe = s.mainPipe ++ (recv_instruction s.chan1P).toMain ++
          (recv_instruction s.chan2P).toMain ++
          [MainMsg.pair s.scene_info (recv_instruction s.chan1P).instr
            (recv_instruction s.chan2P).instr,
           MainMsg.roundEnd (ops.fill_scene_info scene2)] ++ mains) ∧
      s'.scene = ops.reset scene2 ∧
      s'.scene_info = ops.fill_scene_info (ops.reset scene2) ∧
      (∃ t, (game_tick ops s').1 =
        Event.sendScene "1P" (ops.fill_scene_info (ops.reset scene2)) ::
        Event.sendScene "2P" (ops.fill_scene_info (ops.reset scene2)) ::
        Event.clockTick :: t)) := by
  have hcond : (ops.update s.scene (recv_instruction s.chan1P).instr.command
      (recv_instruction s.chan2P).instr.command).2 = GameStatus.GAME_1P_WIN ∨
      (ops.update s.scene (recv_instruction s.chan1P).instr.command
      (recv_instruction s.chan2P).instr.command).2 = GameStatus.GAME_2P_WIN := by
    rw [hu]; exact hwin
  constructor
  · simp only [game_tick]
    rw [if_pos hcond]
    rcases hb : wait_ml_process_ready (recv_instruction s.chan1P).rest
        (recv_instruction s.chan2P).rest with _ | ⟨mains, c1, c2⟩ <;> simp [hb]
  · intro s' hs'
    simp only [game_tick] at hs'
    rw [if_pos hcond] at hs'
    rcases hb : wait_ml_process_ready (recv_instruction s.chan1P).rest
        (recv_instruction s.chan2P).rest with _ | ⟨mains, c1, c2⟩
    · rw [hb] at hs'; simp at hs'
    · rw [hb] at hs'
      simp only [Option.some_inj] at hs'
      subst hs'
      have hfill : (ops.update s.scene (recv_instruction s.chan1P).instr.command
          (recv_instruction s.chan2P).instr.command).1 = scene2 := by rw [hu]
      refine ⟨by simp [hfill], by simp [hfill], ⟨mains, by simp [hfill], by simp [hfill]⟩,
        by simp [hfill], by simp [hfill], ?_⟩
      obtain ⟨t, ht⟩ := game_tick_trace_pre σ ops _
      exact ⟨_, by rw [ht]; simp [hfill]; rfl⟩

/-- C6 witness. -/
theorem round_end_reset_witness :
    (game_tick (natOps GameStatus.GAME_1P_WIN) winState).2 = none ↔
      wait_ml_process_ready (recv_instruction winState.chan1P).rest
        (recv_instruction winState.chan2P).rest = none :=
  (round_end_reset Nat (natOps GameStatus.GAME_1P_WIN) winState 1
    GameStatus.GAME_1P_WIN rfl (Or.inl rfl)).1

/-- C7: within a tick the driver sends the same snapshot value to 1P and to
2P before either inbound channel is read; and across the tick each outbound
pipe is extended with exactly the same snapshots — a single one in steady
state, or, at round end, the tick snapshot followed by the WIN snapshot whose
frame differs (assuming the simulation advances the frame counter each
update, as the spec's monotonic frame counter states), so a controller never
receives two snapshots for the same frame. -/
theorem snapshot_broadcast (σ : Type) (ops : SceneOps σ) (s : DriverState σ)
    (hmono : ∀ (sc : σ) (a b : PlatformAction),
      (ops.fill_scene_info (ops.update sc a b).1).frame =
        (ops.fill_scene_info sc).frame + 1)
    (hsi : s.scene_info = ops.fill_scene_info s.scene) :
    (∃ t, (game_tick ops s).1 =
      Event.sendScene "1P" s.scene_info :: Event.sendScene "2P" s.scene_info ::
      Event.clockTick :: Event.pollRecv "1P" :: t) ∧
    (∀ s' : DriverState σ, (game_tick ops s).2 = some s' →
      (s'.out1P = s.out1P ++ [s.scene_info] ∧ s'.out2P = s.out2P ++ [s.scene_info]) ∨
      (∃ si2 : SceneInfo, si2.frame ≠ s.scene_info.frame ∧
        s'.out1P = s.out1P ++ [s.scene_info, si2] ∧
        s'.out2P = s.out2P ++ [s.scene_info, si2])) := by
  constructor
  · obtain ⟨t, ht⟩ := game_tick_trace_pre σ ops s
    exact ⟨(recv_instruction s.chan1P).toMain.map Event.mainSend ++ [Event.pollRecv "2P"] ++
      (recv_instruction s.chan2P).toMain.map Event.mainSend ++
      [Event.mainSend (MainMsg.pair s.scene_info (recv_instruction s.chan1P).instr
        (recv_instruction s.chan2P).instr),
       Event.sceneUpdate (recv_instruction s.chan1P).instr.command
        (recv_instruction s.chan2P).instr.command] ++ t, by rw [ht]; simp⟩
  · intro s' hs'
    simp only [game_tick] at hs'
    by_cases hw : (ops.update s.scene (recv_instruction s.chan1P).instr.command
        (recv_instruction s.chan2P).instr.command).2 = GameStatus.GAME_1P_WIN ∨
        (ops.update s.scene (recv_instruction s.chan1P).instr.command
        (recv_instruction s.chan2P).instr.command).2 = GameStatus.GAME_2P_WIN
    · rw [if_pos hw] at hs'
      rcases hb : wait_ml_process_ready (recv_instruction s.chan1P).rest
          (recv_instruction s.chan2P).rest with _ | ⟨mains, c1, c2⟩
      · rw [hb] at hs'; simp at hs'
      · rw [hb] at hs'
        simp only [Option.some_inj] at hs'
        subst hs'
        refine Or.inr ⟨ops.fill_scene_info (ops.update s.scene
          (recv_instruction s.chan1P).instr.command
          (recv_instruction s.chan2P).instr.command).1, ?_, by simp, by simp⟩
        rw [hmono, ← hsi]
        exact Nat.succ_ne_self s.scene_info.frame
    · rw [if_neg hw] at hs'
      simp only [Option.some_inj] at hs'
      subst hs'
      exact Or.inl ⟨rfl, rfl⟩

/-- C7 witness. -/
theorem snapshot_broadcast_witness :
    ∃ t, (game_tick (natOps GameStatus.GAME_ALIVE) (mkState [] [])).1 =
      Event.sendScene "1P" blankSceneInfo :: Event.sendScene "2P" blankSceneInfo ::
      Event.clockTick :: Event.pollRecv "1P" :: t :=
  (snapshot_broadcast Nat (natOps GameStatus.GAME_ALIVE) (mkState [] [])
    (fun _ _ _ => rfl) rfl).1

/-- C10: when an ErrorSignal heads either role's queue on a steady-state
tick, the observer pipe receives, in order, first that role's relayed
`(ExceptionMessage, None)` (after the other role's relays when 2P errs, since
1P is polled first) and then the regular tick pair with the erroring role's
instruction defaulted — the relay is in addition to, not instead of, the
tick's normal pair. -/
theorem error_signal_observer_order (σ : Type) (ops : SceneOps σ) :
    (∀ (s : DriverState σ) (e : ExceptionMessage) (rest : List Msg),
      s.chan1P = Msg.exc e :: rest →
      ¬ ((ops.update s.scene PlatformAction.NONE
          (recv_instruction s.chan2P).instr.command).2 = GameStatus.GAME_1P_WIN ∨
        (ops.update s.scene PlatformAction.NONE
          (recv_instruction s.chan2P).instr.command).2 = GameStatus.GAME_2P_WIN) →
      ∃ s' : DriverState σ, (game_tick ops s).2 = some s' ∧
        s'.mainPipe = s.mainPipe ++ [MainMsg.error e] ++
          (recv_instruction s.chan2P).toMain ++
          [MainMsg.pair s.scene_info dummyInstruction
            (recv_instruction s.chan2P).instr]) ∧
    (∀ (s : DriverState σ) (e : ExceptionMessage) (rest : List Msg),
      s.chan2P = Msg.exc e :: rest →
      ¬ ((ops.update s.scene (recv_instruction s.chan1P).instr.command
          PlatformAction.NONE).2 = GameStatus.GAME_1P_WIN ∨
        (ops.update s.scene (recv_instruction s.chan1P).instr.command
          PlatformAction.NONE).2 = GameStatus.GAME_2P_WIN) →
      ∃ s' : DriverState σ, (game_tick ops s).2 = some s' ∧
        s'.mainPipe = s.mainPipe ++ (recv_instruction s.chan1P).toMain ++
          [MainMsg.error e] ++
          [MainMsg.pair s.scene_info (recv_instruction s.chan1P).instr
            dummyInstruction]) := by
  constructor
  · intro s e rest h hstatus
    have hr : recv_instruction s.chan1P = ⟨dummyInstruction, rest, [MainMsg.error e]⟩ := by
      rw [h]; rfl
    have hst := game_tick_no_win σ ops s (by simpa [hr, dummyInstruction] using hstatus)
    exact ⟨_, hst, by simp [hr]⟩
  · intro s e rest h hstatus
    have hr : recv_instruction s.chan2P = ⟨dummyInstruction, rest, [MainMsg.error e]⟩ := by
      rw [h]; rfl
    have hst := game_tick_no_win σ ops s (by simpa [hr, dummyInstruction] using hstatus)
    exact ⟨_, hst, by simp [hr]⟩

/-- C10 witness. -/
theorem error_signal_observer_order_witness :
    (∃ s' : DriverState Nat,
      (game_tick (natOps GameStatus.GAME_ALIVE) (mkState [Msg.exc ⟨"e"⟩] [])).2 = some s' ∧
      s'.mainPipe = (mkState [Msg.exc ⟨"e"⟩] []).mainPipe ++ [MainMsg.error ⟨"e"⟩] ++
        (recv_instruction (mkState [Msg.exc ⟨"e"⟩] []).chan2P).toMain ++
        [MainMsg.pair (mkState [Msg.exc ⟨"e"⟩] []).scene_info dummyInstruction
          (recv_instruction (mkState [Msg.exc ⟨"e"⟩] []).chan2P).instr]) ∧
    (∃ s' : DriverState Nat,
      (game_tick (natOps GameStatus.GAME_ALIVE) (mkState [] [Msg.exc ⟨"f"⟩])).2 = some s' ∧
      s'.mainPipe = (mkState [] [Msg.exc ⟨"f"⟩]).mainPipe ++
        (recv_instruction (mkState [] [Msg.exc ⟨"f"⟩]).chan1P).toMain ++
        [MainMsg.error ⟨"f"⟩] ++
        [MainMsg.pair (mkState [] [Msg.exc ⟨"f"⟩]).scene_info
          (recv_instruction (mkState [] [Msg.exc ⟨"f"⟩]).chan1P).instr
          dummyInstruction]) :=
  ⟨(error_signal_observer_order Nat (natOps GameStatus.GAME_ALIVE)).1
     (mkState [Msg.exc ⟨"e"⟩] []) ⟨"e"⟩ [] rfl (by decide),
   (error_signal_observer_order Nat (natOps GameStatus.GAME_ALIVE)).2
     (mkState [] [Msg.exc ⟨"f"⟩]) ⟨"f"⟩ [] rfl (by decide)⟩

/-- C8: `_recv_instruction` with a role other than "1P" or "2P" raises
(`Except.error`, with no instruction returned and no channel read), while the
two valid roles always produce `Except.ok`. -/
theorem recv_invalid_side (σ : Type) (s : DriverState σ) (side : String)
    (h : side ≠ "1P" ∧ side ≠ "2P") :
    recv_instruction_side s side =
      Except.error ("Invalid from_side: " ++ side ++ ". Should be either 1P or 2P.") ∧
    (∀ t : DriverState σ, (∃ v, recv_instruction_side t "1P" = Except.ok v) ∧
      (∃ v, recv_instruction_side t "2P" = Except.ok v)) := by
  refine ⟨by simp [recv_instruction_side, h.1, h.2], fun t => ⟨⟨_, rfl⟩, ⟨_, rfl⟩⟩⟩

/-- C8 witness. -/
theorem recv_invalid_side_witness :
    recv_instruction_side (mkState [] []) "3P" =
      Except.error ("Invalid from_side: " ++ "3P" ++ ". Should be either 1P or 2P.") :=
  (recv_invalid_side Nat (mkState [] []) "3P" (by simp)).1

/-- C9: every instruction returned by intake has a command in
{NONE, MOVE_LEFT, MOVE_RIGHT}; a READY command arriving during steady-state
ticking is coerced to NONE; and the commands reaching the scene update in a
tick are always drawn from that set. -/
theorem recv_command_invariant (σ : Type) :
    (∀ pipe : List Msg,
      (recv_instruction pipe).instr.command = PlatformAction.NONE ∨
      (recv_instruction pipe).instr.command = PlatformAction.MOVE_LEFT ∨
      (recv_instruction pipe).instr.command = PlatformAction.MOVE_RIGHT) ∧
    (∀ (seq : Int) (rest : List Msg),
      recv_instruction (Msg.instr ⟨seq, PlatformAction.READY⟩ :: rest) =
        ⟨⟨seq, PlatformAction.NONE⟩, rest, []⟩) ∧
    (∀ (ops : SceneOps σ) (s : DriverState σ) (a1 a2 : PlatformAction),
      Event.sceneUpdate a1 a2 ∈ (game_tick ops s).1 →
      (a1 = PlatformAction.NONE ∨ a1 = PlatformAction.MOVE_LEFT ∨
        a1 = PlatformAction.MOVE_RIGHT) ∧
      (a2 = PlatformAction.NONE ∨ a2 = PlatformAction.MOVE_LEFT ∨
        a2 = PlatformAction.MOVE_RIGHT)) := by
  refine ⟨recv_command_cases, fun seq rest => by simp [recv_instruction], ?_⟩
  intro ops s a1 a2 h
  have hmem : a1 = (recv_instruction s.chan1P).instr.command ∧
      a2 = (recv_instruction s.chan2P).instr.command := by
    simp only [game_tick] at h
    split at h
    · split at h <;> simp_all
    · simp_all
  obtain ⟨h1, h2⟩ := hmem
  subst h1; subst h2
  exact ⟨recv_command_cases _, recv_command_cases _⟩

/-- C9 witness. -/
theorem recv_command_invariant_witness :
    recv_instruction [Msg.instr ⟨3, PlatformAction.READY⟩] =
      ⟨⟨3, PlatformAction.NONE⟩, [], []⟩ ∧
    ((PlatformAction.NONE = PlatformAction.NONE ∨
        PlatformAction.NONE = PlatformAction.MOVE_LEFT ∨
        PlatformAction.NONE = PlatformAction.MOVE_RIGHT) ∧
      (PlatformAction.NONE = PlatformAction.NONE ∨
        PlatformAction.NONE = PlatformAction.MOVE_LEFT ∨
        PlatformAction.NONE = PlatformAction.MOVE_RIGHT)) :=
  ⟨(recv_command_invariant Nat).2.1 3 [],
   (recv_command_invariant Nat).2.2 (natOps GameStatus.GAME_ALIVE) (mkState [] [])
     PlatformAction.NONE PlatformAction.NONE (by decide)⟩

end PingPongML
